import Mathlib

/-!
Verification of the sayu event-collection core against its specification.

The definitions below are a shallow embedding of the Python source under
`src/`: the events table of `src/domain/events/store.py` is a list of rows,
SQL queries become filter-and-sort functions, and the collector logic of
`src/domain/collectors/` becomes pure functions over explicit message data.
Machine-level details that no claim depends on (the `range_start`/`range_end`
columns, the `url` column, the JSON `meta` blob, FTS indexing) are omitted
from the row type; every other field of the schema is kept.
-/

namespace Sayu

/-- A row of the `events` table (schema in `EventStore._init_schema`,
`src/domain/events/store.py`).  `source`, `kind` and `actor` are stored as
TEXT in the database (the Python enums are `str` enums), so they are plain
strings here; `file` and `actor` are nullable columns. -/
structure Event where
  id : String
  ts : Int
  source : String
  kind : String
  repo : String
  cwd : String
  file : Option String
  actor : Option String
  text : String
  deriving DecidableEq, Repr

/-- The comparator realising `ORDER BY ts DESC`: larger timestamps first. -/
def tsDesc (a b : Event) : Prop := b.ts ≤ a.ts

instance : DecidableRel tsDesc := fun a b => inferInstanceAs (Decidable (b.ts ≤ a.ts))

instance : IsTotal Event tsDesc := ⟨fun a b => le_total b.ts a.ts⟩

instance : IsTrans Event tsDesc := ⟨fun _ _ _ hab hbc => le_trans hbc hab⟩

/-- `EventStore.find_by_time_range` (`src/domain/events/store.py:129-139`):
`SELECT * FROM events WHERE ts >= start AND ts <= end ORDER BY ts DESC`. -/
def find_by_time_range (table : List Event) (startMs endMs : Int) : List Event :=
  (table.filter fun ev => decide (startMs ≤ ev.ts) && decide (ev.ts ≤ endMs)).insertionSort tsDesc

/-- `EventStore.find_by_repo` (`src/domain/events/store.py:153-163`):
`SELECT * FROM events WHERE repo = ? AND ts >= ? AND ts <= ? ORDER BY ts DESC`. -/
def find_by_repo (table : List Event) (repo : String) (startMs endMs : Int) : List Event :=
  (table.filter fun ev =>
    ev.repo == repo && decide (startMs ≤ ev.ts) && decide (ev.ts ≤ endMs)).insertionSort tsDesc

/-- `EventStore.find_by_file` (`src/domain/events/store.py:141-151`):
`SELECT * FROM events WHERE file = ? AND ts >= ? AND ts <= ? ORDER BY ts DESC`. -/
def find_by_file (table : List Event) (file : String) (startMs endMs : Int) : List Event :=
  (table.filter fun ev =>
    ev.file == some file && decide (startMs ≤ ev.ts) && decide (ev.ts ≤ endMs)).insertionSort tsDesc

/-- One `INSERT INTO events ...` statement.  The `id` column is the PRIMARY
KEY, so inserting a row whose id is already present fails with a constraint
violation (the exception of `EventStore.insert_batch`). -/
def insertRow (table : List Event) (ev : Event) : Except String (List Event) :=
  if table.any fun r => r.id == ev.id then
    Except.error "UNIQUE constraint failed: events.id"
  else
    Except.ok (table ++ [ev])

/-- The loop body of `EventStore.insert_batch` inside the transaction:
insert the batch one row at a time, stopping at the first failure. -/
def insertAll (table : List Event) : List Event → Except String (List Event)
  | [] => Except.ok table
  | ev :: rest =>
    match insertRow table ev with
    | Except.ok t => insertAll t rest
    | Except.error msg => Except.error msg

/-- `EventStore.insert_batch` (`src/domain/events/store.py:98-127`): run the
batch in a transaction; on success commit, on any failure roll the whole
transaction back (the table is left as it was) and re-raise the error.
The result is the table after the call paired with the propagated error. -/
def insert_batch (table : List Event) (batch : List Event) : List Event × Option String :=
  match insertAll table batch with
  | Except.ok t => (t, none)
  | Except.error msg => (table, some msg)

/-! ## Anchor cache and collection window

`CacheManager.get` (`src/infra/cache/manager.py`) reads a cache entry and
evaluates it lazily against a TTL: an entry older than the TTL is treated as
absent.  `CollectorCache.get_last_commit_time` calls it with `ttl = 60`
seconds.  An entry is the pair (write time in seconds, cached value). -/
def cacheGet (entry : Option (Int × Int)) (nowSec ttl : Int) : Option Int :=
  match entry with
  | none => none
  | some (wts, v) => if nowSec - wts > ttl then none else some v

/-- Python truthiness of an `Optional[int]`: `None` and `0` are falsy.
The manager guards the cached anchor with `if cached_time:`. -/
def truthyInt : Option Int → Bool
  | none => false
  | some v => v != 0

/-- The *Anchor* step of `CollectorManager.collect_since_last_commit`
(`src/domain/collectors/manager.py:99-122`): the window start is the cached
last-commit time when `if cached_time:` holds, else the last commit time from
git (which is then written to the cache), else `now_ms - 24h`.  The window
end is `now_ms`.  Result: (start, end, whether the cache was written). -/
def resolveWindow (cacheEntry : Option (Int × Int)) (nowSec : Int)
    (gitLastMs : Option Int) (nowMs : Int) : Int × Int × Bool :=
  let cached := cacheGet cacheEntry nowSec 60
  if truthyInt cached then (cached.getD 0, nowMs, false)
  else
    match gitLastMs with
    | some t => (t, nowMs, true)
    | none => (nowMs - 24 * 60 * 60 * 1000, nowMs, false)

/-- `CollectorManager._collect_with_error_handling`
(`src/domain/collectors/manager.py:183-204`): run one collector's
`pull_since` inside a try/except; an exception degrades to the empty list.
The collector's outcome is modelled as an `Except`. -/
def collectWithErrorHandling (result : Except String (List Event)) : List Event :=
  match result with
  | Except.ok evs => evs
  | Except.error _ => []

/-- The *Dispatch/Merge* step of `collect_since_last_commit`
(`src/domain/collectors/manager.py:150-174`): every submitted task's result
is gathered through `_collect_with_error_handling` and the lists are
concatenated into `all_events`. -/
def dispatchAll (results : List (Except String (List Event))) : List Event :=
  (results.map collectWithErrorHandling).flatten

/-- The tail of `CollectorManager.collect_since_last_commit`
(`src/domain/collectors/manager.py:124-181`) for a resolved window
`[startMs, nowMs]`: merge the collector outputs, write them to the store
with `insert_batch` when non-empty (the merged events are *always*
re-inserted as new rows; every collector constructs its events with fresh
`uuid4` ids), then return `find_by_repo(repo, startMs, nowMs)` read back
from the store.  Result: (store after the call, returned event list). -/
def collect_since_last_commit (store : List Event) (repo : String)
    (startMs nowMs : Int) (collectorResults : List (Except String (List Event))) :
    List Event × List Event :=
  let allEvents := dispatchAll collectorResults
  let store' := if allEvents.isEmpty then store else (insert_batch store allEvents).1
  (store', find_by_repo store' repo startMs nowMs)

/-! ## String helpers

Python string operations used by the collectors, modelled over the
character list of the string so that concrete instances reduce in the
kernel: `in` (substring containment), `str.lower`, `str.strip`, `len` and
slicing (Python indexes code points, as `List Char` does). -/

def startsWithChars : List Char → List Char → Bool
  | [], _ => true
  | _ :: _, [] => false
  | a :: as, b :: bs => a == b && startsWithChars as bs

def containsChars (pat : List Char) : List Char → Bool
  | [] => startsWithChars pat []
  | c :: rest => startsWithChars pat (c :: rest) || containsChars pat rest

/-- `pat in s` on Python strings. -/
def containsSub (s pat : String) : Bool := containsChars pat.toList s.toList

/-- `s.lower()`. -/
def lowerStr (s : String) : String := String.mk (s.toList.map Char.toLower)

/-- `s.strip()`. -/
def stripStr (s : String) : String :=
  String.mk (((s.toList.dropWhile Char.isWhitespace).reverse.dropWhile
    Char.isWhitespace).reverse)

/-- `len(s)` (code points). -/
def strLen (s : String) : Nat := s.toList.length

/-- `s[:n]` (code points). -/
def takeStr (n : Nat) (s : String) : String := String.mk (s.toList.take n)

/-- `s.count(c)` for a single character, written by code point to keep
brace characters out of the source text. -/
def countChar (s : String) (code : Nat) : Nat :=
  s.toList.countP fun c => c.toNat == code

/-- `"sep".join(parts)`. -/
def joinWith (sep : String) : List String → String
  | [] => ""
  | [s] => s
  | s :: rest => s ++ sep ++ joinWith sep rest

/-! ## Conversation messages and the shared extraction base
(`src/domain/collectors/conversation_base.py`) -/

/-- One typed part of a structured message content list.  Besides `type` and
`text` it carries the fields `ClaudeCollector._extract_text_content` reads
from `tool_use`/`tool_result` parts: the tool name (`.get('name',
'unknown_tool')`), whether the input dict is non-empty, its `command` and
`pattern` entries, and the result content string. -/
structure ContentItem where
  type : String
  text : String := ""
  toolName : String := "unknown_tool"
  inputNonempty : Bool := false
  inputCommand : Option String := none
  inputPattern : Option String := none
  resultContent : String := ""
  deriving DecidableEq, Repr

/-- The `content` value of a message: a flat string (the default is `''`)
or a list of typed parts. -/
inductive MsgContent where
  | str (s : String)
  | parts (items : List ContentItem)
  deriving DecidableEq, Repr

/-- A parsed message dict as produced by `parse_conversation_file`:
`timestamp`, `role`, `text`, optional `content` and `file` keys. -/
structure Message where
  role : String
  timestamp : Int
  text : String := ""
  content : MsgContent := MsgContent.str ""
  file : Option String := none
  deriving DecidableEq, Repr

/-- Role-to-actor mapping of `_create_event` (line 90 of
`conversation_base.py`): `user` maps to the user actor, any other accepted
role to the assistant. -/
def actorOfRole (role : String) : String :=
  if role == "user" then "user" else "assistant"

/-- The pattern list of
`ConversationCollector._is_tool_related_content`
(`src/domain/collectors/conversation_base.py:172-177`). -/
def toolPatternsBase : List String :=
  ["tool_use_id", "function_calls", "<invoke>", "antml:parameter",
   "tool_result", "tool_use", "function_call", "tool_call", "tool_response",
   "invoke name=", "parameter name=", "tool_call_id", "function_result",
   "tool_choice", "tool_usage", "function_definition", "tool_definition"]

/-- The XML-ish tag list of the same function (line 195). -/
def xmlTagsBase : List String := ["<invoke", "<parameter", "<tool", "<function"]

/-- `ConversationCollector._is_tool_related_content` on a string
(`src/domain/collectors/conversation_base.py:144-203`), the ordered signals:
pattern containment on the lowercased text, brace density above 5% when both
braces occur (character codes 123 and 125), XML-like tool tags, and a
length floor of 10 on the stripped text. -/
def isToolRelatedContent (text : String) : Bool :=
  if text == "" then false
  else
    let tl := lowerStr text
    toolPatternsBase.any (fun p => containsSub tl p)
    || (containsSub text "\x7b" && containsSub text "\x7d"
        && 20 * (countChar text 123 + countChar text 125) > strLen text)
    || (containsSub text "<" && containsSub text ">"
        && xmlTagsBase.any (fun t => containsSub tl t))
    || strLen (stripStr text) < 10

/-- The part types skipped by `_create_event`'s structured-content walk
(`src/domain/collectors/conversation_base.py:102`). -/
def toolPartTypes : List String :=
  ["tool_use", "tool_result", "function_call", "function_result",
   "tool_call", "tool_response"]

/-- The structured-content walk of `_create_event`
(`src/domain/collectors/conversation_base.py:97-110`): parts with a
tool-related type are skipped, only `text`-typed parts whose text is not
tool-related contribute. -/
def extractTextFromParts : List ContentItem → List String
  | [] => []
  | item :: rest =>
    if toolPartTypes.contains item.type then extractTextFromParts rest
    else if item.type == "text" then
      if isToolRelatedContent item.text then extractTextFromParts rest
      else item.text :: extractTextFromParts rest
    else extractTextFromParts rest

/-- The final keyword gate of `_create_event`
(`src/domain/collectors/conversation_base.py:128`). -/
def toolKeywordsFinal : List String :=
  ["tool_use_id", "function_calls", "<invoke>", "antml:parameter", "tool_result"]

/-- `ConversationCollector._create_event`
(`src/domain/collectors/conversation_base.py:73-142`).  `.ok none` models
`return None` (the message is filtered out).  When every filter passes,
control reaches the `Event(...)` constructor; that line evaluates
`self.get_event_source()` — `EventSource.CURSOR` for the Cursor subclass, a
member absent from `EventSource` in `src/domain/events/types.py` — and
`EventKind.CONVERSATION`, a member absent from `EventKind`; either access
raises `AttributeError`, so the constructor never completes and no event is
produced.  This is modelled as `.error`; the per-file handler of
`pull_since` catches it. -/
def createEventBase (m : Message) : Except String (Option Event) :=
  if m.role == "system" then Except.ok none
  else if !(m.role == "user" || m.role == "assistant") then Except.ok none
  else
    let text :=
      if m.text == "" then
        match m.content with
        | MsgContent.parts items => joinWith "\n" (extractTextFromParts items)
        | MsgContent.str s => if isToolRelatedContent s then "" else s
      else m.text
    if text != "" && isToolRelatedContent text then Except.ok none
    else if text == "" || strLen (stripStr text) < 3 then Except.ok none
    else if toolKeywordsFinal.any (fun k => containsSub (lowerStr text) k) then Except.ok none
    else Except.error "AttributeError: missing enum member"

/-- A conversation file as `ConversationCollector.pull_since` sees it:
whether the path exists, its modification time in milliseconds
(`int(conv_path.stat().st_mtime * 1000)`) and the outcome of
`parse_conversation_file` (an exception is `.error`). -/
structure ConvFile where
  present : Bool
  mtimeMs : Int
  parse : Except String (List Message)

/-- The message loop of `pull_since`
(`src/domain/collectors/conversation_base.py:56-60`): in-window messages are
converted with `_create_event`; an exception from `_create_event` is caught
by the per-file handler, which keeps the events appended so far and moves on
to the next file. -/
def convertMessages (startMs endMs : Int) : List Message → List Event
  | [] => []
  | m :: rest =>
    if startMs ≤ m.timestamp ∧ m.timestamp ≤ endMs then
      match createEventBase m with
      | Except.error _ => []
      | Except.ok none => convertMessages startMs endMs rest
      | Except.ok (some ev) => ev :: convertMessages startMs endMs rest
    else convertMessages startMs endMs rest

/-- Per-file processing of `pull_since`
(`src/domain/collectors/conversation_base.py:39-65`): a missing path is
skipped, a file whose mtime is before the window start is skipped, a parse
failure contributes nothing. -/
def processFile (startMs endMs : Int) (f : ConvFile) : List Event :=
  if !f.present then []
  else if f.mtimeMs < startMs then []
  else
    match f.parse with
    | Except.error _ => []
    | Except.ok msgs => convertMessages startMs endMs msgs

/-- `ConversationCollector.pull_since`
(`src/domain/collectors/conversation_base.py:34-71`): total by construction
— every failure path inside the loop is caught and the accumulated event
list is returned. -/
def pull_since (files : List ConvFile) (startMs endMs : Int) : List Event :=
  (files.map (processFile startMs endMs)).flatten

/-! ## The standalone Claude collector (`src/domain/collectors/claude.py`) -/

/-- One line of a Claude JSONL transcript as `_create_event_from_message`
reads it: `timestampMs` is the result of `_parse_iso_timestamp` on the
`timestamp` field (`none` when the field is missing, falsy, or fails to
parse), `type` is `data.get('type', 'unknown')`, `content` the
`message.content` list (a non-list content extracts to the empty string),
and `cwd` the recorded working directory (`''` when absent). -/
structure ClaudeMessageData where
  timestampMs : Option Int := none
  type : String := "unknown"
  content : List ContentItem := []
  cwd : String := ""
  deriving DecidableEq, Repr

/-- The walk of `ClaudeCollector._extract_text_content`
(`src/domain/collectors/claude.py:267-316`): `text` parts contribute their
text; `tool_use` parts contribute a `[Tool: name] ...` summary built from
the input's `command` or `pattern` entry; `tool_result` parts contribute a
`[Tool Result] ...` summary of the (length-capped) result content.  Unlike
the conversation base, tool parts are *not* skipped. -/
def claudeTextParts : List ContentItem → List String
  | [] => []
  | item :: rest =>
    if item.type == "text" then
      (if item.text != "" then [item.text] else []) ++ claudeTextParts rest
    else if item.type == "tool_use" then
      (if item.inputNonempty then
        match item.inputCommand with
        | some cmd => ["[Tool: " ++ item.toolName ++ "] " ++ cmd]
        | none =>
          match item.inputPattern with
          | some pat => ["[Tool: " ++ item.toolName ++ "] pattern: " ++ pat]
          | none => ["[Tool: " ++ item.toolName ++ "] used"]
      else ["[Tool: " ++ item.toolName ++ "] used"]) ++ claudeTextParts rest
    else if item.type == "tool_result" then
      (if item.resultContent != "" then
        ["[Tool Result] " ++
          (if strLen item.resultContent > 200 then
            takeStr 200 item.resultContent ++ "..."
          else item.resultContent)]
      else []) ++ claudeTextParts rest
    else claudeTextParts rest

/-- `ClaudeCollector._extract_text_content`: the parts joined with `' '`. -/
def extractTextContent (items : List ContentItem) : String :=
  joinWith " " (claudeTextParts items)

/-- `ClaudeCollector._determine_repo_from_cwd`
(`src/domain/collectors/claude.py:241-265`).  The call
`git rev-parse --show-toplevel` in `cwd` is the oracle `gitToplevel`
(`none` when the subprocess fails: not a repo, git missing, or `cwd`
absent) and `os.path.isdir` is the oracle `isDir`.  An empty `cwd`, a
failed subprocess, an empty output and a non-directory output all yield
`none`. -/
def determineRepoFromCwd (gitToplevel : String → Option String)
    (isDir : String → Bool) (cwd : String) : Option String :=
  if cwd == "" then none
  else
    match gitToplevel cwd with
    | none => none
    | some repoPath =>
      if repoPath != "" && isDir repoPath then some repoPath else none

/-- `ClaudeCollector._create_event_from_message`
(`src/domain/collectors/claude.py:150-223`): drop the line when the
timestamp is missing or falsy, when the extracted text is empty or shorter
than 5 stripped characters, or when `cwd` does not resolve to a git root;
otherwise build an Event with source `llm`, kind `chat`, the resolved root
as `repo`, and the text capped at 2000 characters.  `freshId` stands for
the `uuid4` id. -/
def createEventFromMessage (gitToplevel : String → Option String)
    (isDir : String → Bool) (freshId : String) (d : ClaudeMessageData) :
    Option Event :=
  match d.timestampMs with
  | none => none
  | some ts =>
    if ts == 0 then none
    else
      let text := extractTextContent d.content
      if text == "" || strLen (stripStr text) < 5 then none
      else
        let actor := if d.type == "user" then "user" else "assistant"
        match determineRepoFromCwd gitToplevel isDir d.cwd with
        | none => none
        | some actualRepo =>
          some { id := freshId, ts := ts, source := "llm", kind := "chat",
                 repo := actualRepo,
                 cwd := if d.cwd == "" then actualRepo else d.cwd,
                 file := none, actor := some actor, text := takeStr 2000 text }

/-! ## The Cursor bubble decoder (`src/domain/collectors/cursor.py`) -/

/-- A decoded bubble row value, with the fields
`CursorConversationCollector.parse_conversation_file` reads
(`src/domain/collectors/cursor.py:166-205`); every field is read with
`.get` and the shown default. -/
structure BubbleData where
  tokenCountUpUntilHere : Int := 0
  createdAt : Int := 0
  type : Int := 0
  text : String := ""
  relevantFiles : List String := []
  deriving DecidableEq, Repr

/-- The milliseconds normalisation (`src/domain/collectors/cursor.py:176-177`):
a positive value below 1e10 is scaled from seconds to milliseconds. -/
def scaleMsIfSeconds (t : Int) : Int :=
  if 0 < t ∧ t < 10000000000 then t * 1000 else t

/-- The timestamp resolution of the bubble parser
(`src/domain/collectors/cursor.py:168-177`): `tokenCountUpUntilHere` first,
else `createdAt`, else the composer's `lastUpdatedAt` (each consulted only
when the previous value is zero), then the milliseconds normalisation. -/
def resolveBubbleTimestamp (b : BubbleData) (composerLastUpdatedAt : Int) : Int :=
  let t1 := b.tokenCountUpUntilHere
  let t2 := if t1 = 0 then b.createdAt else t1
  let t3 := if t2 = 0 then composerLastUpdatedAt else t2
  scaleMsIfSeconds t3

/-- The per-row message construction of the bubble parser
(`src/domain/collectors/cursor.py:179-205`): a row with non-empty text and a
positive resolved timestamp appends exactly one message dict, whose role is
`user` when the integer `type` is 1 and `assistant` otherwise, and whose
`file` is the head of `relevantFiles`; any other row appends nothing. -/
def parseBubble (b : BubbleData) (composerLastUpdatedAt : Int) : Option Message :=
  let ts := resolveBubbleTimestamp b composerLastUpdatedAt
  if b.text != "" ∧ 0 < ts then
    some { role := if b.type = 1 then "user" else "assistant",
           timestamp := ts, text := b.text, file := b.relevantFiles.head? }
  else none

/-! ## Concrete sample data used by counterexamples and witnesses -/

/-- A commit event at ts 1. -/
def sampleEvA : Event :=
  { id := "a", ts := 1, source := "git", kind := "commit", repo := "/r",
    cwd := "/r", file := none, actor := some "user", text := "first" }

/-- A commit event at ts 2. -/
def sampleEvB : Event :=
  { id := "b", ts := 2, source := "git", kind := "commit", repo := "/r",
    cwd := "/r", file := none, actor := some "user", text := "second" }

/-- A distinct event that collides with `sampleEvA` on the primary key. -/
def sampleEvC : Event :=
  { id := "a", ts := 3, source := "git", kind := "commit", repo := "/r",
    cwd := "/r", file := none, actor := some "user", text := "third" }

/-- A collected commit event, first collection run (uuid `g1`). -/
def sampleEvG1 : Event :=
  { id := "g1", ts := 5, source := "git", kind := "commit", repo := "/r",
    cwd := "/r", file := none, actor := some "user", text := "init" }

/-- The same underlying commit re-collected in a second run: every collector
constructs its events with a fresh `uuid4` id, so only the id differs. -/
def sampleEvG2 : Event :=
  { id := "g2", ts := 5, source := "git", kind := "commit", repo := "/r",
    cwd := "/r", file := none, actor := some "user", text := "init" }

/-- First collection run over an empty store: the git collector returns the
commit as `sampleEvG1`. -/
def firstRun : List Event × List Event :=
  collect_since_last_commit [] "/r" 0 10 [Except.ok [sampleEvG1]]

/-- Second run over the unchanged sources and window: the collector
re-extracts the same commit, now constructed as `sampleEvG2` (fresh id). -/
def secondRun : List Event × List Event :=
  collect_since_last_commit firstRun.1 "/r" 0 10 [Except.ok [sampleEvG2]]

/-- A plain in-window message (timestamp 3 lies inside the window [0, 10]). -/
def sampleMsgInWindow : Message :=
  { role := "user", timestamp := 3,
    text := "we should refactor the storage module today" }

/-- A conversation file whose mtime predates the window start but whose
messages lie inside the window. -/
def sampleStaleFile : ConvFile :=
  { present := true, mtimeMs := -5, parse := Except.ok [sampleMsgInWindow] }

/-- A conversation file whose parse raises. -/
def sampleFileErr : ConvFile :=
  { present := true, mtimeMs := 7, parse := Except.error "boom" }

/-- A healthy conversation file. -/
def sampleFileOk : ConvFile :=
  { present := true, mtimeMs := 7, parse := Except.ok [sampleMsgInWindow] }

/-- A message text carrying the `tool_use_id` tool-call marker. -/
def sampleToolText : String :=
  "please check tool_use_id 12345 in the logs right now"

/-- A Claude JSONL line whose only content part is marker-carrying text. -/
def sampleClaudeToolLine : ClaudeMessageData :=
  { timestampMs := some 1000, type := "user",
    content := [{ type := "text", text := sampleToolText }], cwd := "/w/p" }

/-- A `git rev-parse --show-toplevel` oracle knowing one repository. -/
def sampleGitToplevel : String → Option String :=
  fun c => if c == "/w/p" then some "/w/p" else none

/-- An `os.path.isdir` oracle for the same repository. -/
def sampleIsDir : String → Bool := fun p => p == "/w/p"

/-- The event the standalone Claude collector builds from
`sampleClaudeToolLine`. -/
def sampleClaudeToolEvent : Event :=
  { id := "id1", ts := 1000, source := "llm", kind := "chat", repo := "/w/p",
    cwd := "/w/p", file := none, actor := some "user", text := sampleToolText }

/-- The same marker-carrying text as a flat-text message for the
conversation base. -/
def sampleBaseToolMsg : Message :=
  { role := "user", timestamp := 5, text := sampleToolText }

/-- A bubble row carrying a non-zero token count *and* a creation time. -/
def sampleBubbleTok : BubbleData :=
  { tokenCountUpUntilHere := 777, createdAt := 1690000000, type := 2,
    text := "hello world" }

/-- The bubble row of the spec's worked example:
`\x7b"type":1,"text":"fix bug","createdAt":1690000000\x7d`. -/
def sampleBubbleFixBug : BubbleData :=
  { createdAt := 1690000000, type := 1, text := "fix bug" }

/-- The message the bubble parser produces from `sampleBubbleFixBug`. -/
def sampleMsgFixBug : Message :=
  { role := "user", timestamp := 1690000000000, text := "fix bug", file := none }

/-- A bubble row with a type discriminator other than 1. -/
def sampleBubbleAssistant : BubbleData :=
  { createdAt := 1, type := 2, text := "sure thing" }

/-- The message the bubble parser produces from `sampleBubbleAssistant`. -/
def sampleMsgAssistant : Message :=
  { role := "assistant", timestamp := 1000, text := "sure thing", file := none }

/-! ## Theorems -/

/-- The ORDER BY sort is a permutation, so it preserves element counts. -/
theorem count_insertionSort (l : List Event) (ev : Event) :
    (l.insertionSort tsDesc).count ev = l.count ev :=
  (List.perm_insertionSort tsDesc l).count_eq ev

/-- When no id of the batch collides with the table or with the rest of the
batch, the transaction loop of `insert_batch` succeeds and appends the whole
batch. -/
theorem insertAll_ok_of_nodup (table batch : List Event)
    (h : ((table ++ batch).map Event.id).Nodup) :
    insertAll table batch = Except.ok (table ++ batch) := by
  induction batch generalizing table with
  | nil => simp [insertAll]
  | cons ev rest ih =>
    have hid : ¬ (table.any fun r => r.id == ev.id) = true := by
      intro hc
      rcases List.any_eq_true.mp hc with ⟨r, hr, heq⟩
      have hrid : r.id = ev.id := by simpa using heq
      have : r.id ∈ table.map Event.id := List.mem_map_of_mem Event.id hr
      rw [hrid] at this
      have hnd2 : (table.map Event.id ++ ev.id :: rest.map Event.id).Nodup := by
        simpa using h
      exact (List.disjoint_of_nodup_append hnd2) this (by simp)
    have hstep : insertRow table ev = Except.ok (table ++ [ev]) := by
      simp [insertRow, hid]
    have h' : (((table ++ [ev]) ++ rest).map Event.id).Nodup := by
      simpa using h
    calc insertAll table (ev :: rest)
        = insertAll (table ++ [ev]) rest := by simp [insertAll, hstep]
      _ = Except.ok ((table ++ [ev]) ++ rest) := ih (table ++ [ev]) h'
      _ = Except.ok (table ++ ev :: rest) := by simp

/-- A successful transaction loop appends exactly the batch. -/
theorem insertAll_ok_eq (table batch t : List Event)
    (h : insertAll table batch = Except.ok t) : t = table ++ batch := by
  induction batch generalizing table with
  | nil =>
    simp [insertAll] at h
    simp [h.symm]
  | cons ev rest ih =>
    by_cases hc : (table.any fun r => r.id == ev.id) = true
    · simp [insertAll, insertRow, hc] at h
    · have hstep : insertRow table ev = Except.ok (table ++ [ev]) := by
        simp [insertRow, hc]
      rw [insertAll, hstep] at h
      have := ih (table ++ [ev]) h
      simpa using this

/-- A successful transaction loop preserves primary-key uniqueness. -/
theorem insertAll_ok_nodup (table batch t : List Event)
    (h : insertAll table batch = Except.ok t)
    (hnd : (table.map Event.id).Nodup) :
    ((table ++ batch).map Event.id).Nodup := by
  induction batch generalizing table with
  | nil => simpa using hnd
  | cons ev rest ih =>
    by_cases hc : (table.any fun r => r.id == ev.id) = true
    · simp [insertAll, insertRow, hc] at h
    · have hstep : insertRow table ev = Except.ok (table ++ [ev]) := by
        simp [insertRow, hc]
      rw [insertAll, hstep] at h
      have hnotin : ev.id ∉ table.map Event.id := by
        intro hin
        rcases List.mem_map.mp hin with ⟨r, hr, hrid⟩
        exact hc (List.any_eq_true.mpr ⟨r, hr, by simp [hrid]⟩)
      have hnd' : ((table ++ [ev]).map Event.id).Nodup := by
        rw [List.map_append]
        exact List.Nodup.append hnd (by simp) (by
          intro x hx hx'
          simp at hx'
          rw [hx'] at hx
          exact hnotin hx)
      have := ih (table ++ [ev]) h hnd'
      simpa using this

/-- C1 (amended): in `find_by_time_range`, `find_by_repo` and
`find_by_file`, every stored event matching the filters with
`start ≤ ts ≤ end` is returned exactly once, and the result is sorted by
`ts` *descending* (the queries end in `ORDER BY ts DESC`), not ascending as
claimed. -/
theorem find_queries_exact_once_sorted_desc
    (table : List Event) (repo file : String) (startMs endMs : Int)
    (ev : Event) (hnd : table.Nodup) :
    ((find_by_time_range table startMs endMs).Sorted tsDesc ∧
     (find_by_repo table repo startMs endMs).Sorted tsDesc ∧
     (find_by_file table file startMs endMs).Sorted tsDesc) ∧
    (ev ∈ table → startMs ≤ ev.ts → ev.ts ≤ endMs →
      (find_by_time_range table startMs endMs).count ev = 1) ∧
    (ev ∈ table → ev.repo = repo → startMs ≤ ev.ts → ev.ts ≤ endMs →
      (find_by_repo table repo startMs endMs).count ev = 1) ∧
    (ev ∈ table → ev.file = some file → startMs ≤ ev.ts → ev.ts ≤ endMs →
      (find_by_file table file startMs endMs).count ev = 1) := by
  refine ⟨⟨?_, ?_, ?_⟩, ?_, ?_, ?_⟩
  · exact List.sorted_insertionSort tsDesc _
  · exact List.sorted_insertionSort tsDesc _
  · exact List.sorted_insertionSort tsDesc _
  · intro hm hs he
    rw [find_by_time_range, count_insertionSort]
    exact List.count_eq_one_of_mem (hnd.filter _)
      (List.mem_filter.mpr ⟨hm, by simp [hs, he]⟩)
  · intro hm hr hs he
    rw [find_by_repo, count_insertionSort]
    exact List.count_eq_one_of_mem (hnd.filter _)
      (List.mem_filter.mpr ⟨hm, by simp [hr, hs, he]⟩)
  · intro hm hf hs he
    rw [find_by_file, count_insertionSort]
    exact List.count_eq_one_of_mem (hnd.filter _)
      (List.mem_filter.mpr ⟨hm, by simp [hf, hs, he]⟩)

/-- C1 witness: on a concrete two-event table, the matching event is
returned exactly once. -/
theorem find_queries_exact_once_sorted_desc_witness :
    (find_by_time_range [sampleEvA, sampleEvB] 0 10).count sampleEvB = 1 :=
  ((find_queries_exact_once_sorted_desc [sampleEvA, sampleEvB] "/r" "f" 0 10
    sampleEvB (by decide)).2.1) (by decide) (by decide) (by decide)

/-- C1 counterexample: with two stored events at ts 1 and ts 2 the query
returns them in *descending* order, so the returned list is not sorted by
ts ascending. -/
theorem find_by_time_range_not_ascending :
    find_by_time_range [sampleEvA, sampleEvB] 0 10 = [sampleEvB, sampleEvA] ∧
    ¬ (find_by_time_range [sampleEvA, sampleEvB] 0 10).Sorted
        (fun a b => a.ts ≤ b.ts) := by
  exact ⟨by decide, by decide⟩

/-- C3: `insert_batch` is atomic — when no row fails the whole batch is
appended and no error escapes; when any row fails, the table is left
exactly as it was and the error propagates; and (given a table with unique
primary keys) the call succeeds precisely when the table plus batch has no
primary-key collision. -/
theorem insert_batch_atomic (table batch : List Event) :
    ((insert_batch table batch).2 = none →
      (insert_batch table batch).1 = table ++ batch) ∧
    (∀ msg, (insert_batch table batch).2 = some msg →
      (insert_batch table batch).1 = table) ∧
    ((table.map Event.id).Nodup →
      ((insert_batch table batch).2 = none ↔
        ((table ++ batch).map Event.id).Nodup)) := by
  refine ⟨?_, ?_, ?_⟩
  · intro hok
    cases hres : insertAll table batch with
    | ok t =>
      simp [insert_batch, hres]
      exact insertAll_ok_eq table batch t hres
    | error msg => simp [insert_batch, hres] at hok
  · intro msg herr
    cases hres : insertAll table batch with
    | ok t => simp [insert_batch, hres] at herr
    | error m => simp [insert_batch, hres]
  · intro hnd
    constructor
    · intro hok
      cases hres : insertAll table batch with
      | ok t => exact insertAll_ok_nodup table batch t hres hnd
      | error msg => simp [insert_batch, hres] at hok
    · intro hnodup
      simp [insert_batch, insertAll_ok_of_nodup table batch hnodup]

/-- C3 witness: a batch whose event collides with a stored primary key
fails and leaves the concrete table unchanged. -/
theorem insert_batch_atomic_witness :
    (insert_batch [sampleEvA] [sampleEvB, sampleEvC]).1 = [sampleEvA] :=
  (insert_batch_atomic [sampleEvA] [sampleEvB, sampleEvC]).2.1
    "UNIQUE constraint failed: events.id" (by decide)

/-- C2 (amended): re-invoking `collect_since_last_commit` over unchanged
sources re-inserts the re-collected events — which carry fresh uuid4 ids —
so the store grows by one row per re-collected event and the second return
value is the query over the enlarged store; the call is not idempotent. -/
theorem collect_since_last_commit_reinserts
    (store c1 c2 : List Event) (repo : String) (s e : Int)
    (hnd : (((store ++ c1) ++ c2).map Event.id).Nodup)
    (h1 : c1 ≠ []) (h2 : c2 ≠ []) :
    (collect_since_last_commit
        (collect_since_last_commit store repo s e [Except.ok c1]).1
        repo s e [Except.ok c2]).1 = (store ++ c1) ++ c2 ∧
    (collect_since_last_commit
        (collect_since_last_commit store repo s e [Except.ok c1]).1
        repo s e [Except.ok c2]).2
      = find_by_repo ((store ++ c1) ++ c2) repo s e := by
  have hd : ∀ c : List Event, dispatchAll [Except.ok c] = c := by
    intro c
    simp [dispatchAll, collectWithErrorHandling]
  have hne : ∀ c : List Event, c ≠ [] → c.isEmpty = false := by
    intro c hc
    cases c with
    | nil => exact absurd rfl hc
    | cons a l => rfl
  have hnd1 : ((store ++ c1).map Event.id).Nodup := by
    have h' : ((store ++ c1).map Event.id ++ c2.map Event.id).Nodup := by
      rw [← List.map_append]
      exact hnd
    exact (List.nodup_append.mp h').1
  have hfirst : (collect_since_last_commit store repo s e [Except.ok c1]).1
      = store ++ c1 := by
    simp [collect_since_last_commit, hd, hne c1 h1, insert_batch,
      insertAll_ok_of_nodup store c1 hnd1]
  have hsecond : insertAll (store ++ c1) c2 = Except.ok ((store ++ c1) ++ c2) :=
    insertAll_ok_of_nodup (store ++ c1) c2 hnd
  rw [hfirst]
  constructor
  · simp [collect_since_last_commit, hd, hne c2 h2, insert_batch, hsecond]
  · simp [collect_since_last_commit, hd, hne c2 h2, insert_batch, hsecond]

/-- C2 witness: the concrete two-run scenario grows the store to both
collected copies. -/
theorem collect_since_last_commit_reinserts_witness :
    (collect_since_last_commit
        (collect_since_last_commit [] "/r" 0 10 [Except.ok [sampleEvG1]]).1
        "/r" 0 10 [Except.ok [sampleEvG2]]).1 = ([] ++ [sampleEvG1]) ++ [sampleEvG2] :=
  (collect_since_last_commit_reinserts [] [sampleEvG1] [sampleEvG2] "/r" 0 10
    (by decide) (by decide) (by decide)).1

/-- C2 counterexample: the second invocation over an unchanged, populated
store returns a different (larger) event set, and the store now holds two
rows that agree on every column except the id. -/
theorem collect_twice_duplicates :
    firstRun.2 = [sampleEvG1] ∧
    secondRun.2 ≠ firstRun.2 ∧
    secondRun.1.length = 2 ∧
    sampleEvG1 ∈ secondRun.1 ∧ sampleEvG2 ∈ secondRun.1 ∧
    sampleEvG1.ts = sampleEvG2.ts ∧ sampleEvG1.text = sampleEvG2.text ∧
    sampleEvG1.repo = sampleEvG2.repo ∧ sampleEvG1.id ≠ sampleEvG2.id := by
  refine ⟨by decide, by decide, by decide, by decide, by decide, by decide,
    by decide, by decide, by decide⟩

/-- A file whose parse fails contributes no events, regardless of its
existence or mtime. -/
theorem processFile_error (startMs endMs : Int) (f : ConvFile) (msg : String)
    (hp : f.parse = Except.error msg) :
    processFile startMs endMs f = [] := by
  unfold processFile
  cases hpres : f.present with
  | false => simp
  | true =>
    by_cases hmt : f.mtimeMs < startMs
    · simp [hmt]
    · simp [hmt, hp]

/-- C4: failures stay inside their boundary — a conversation file whose
parse raises contributes nothing without affecting the other files of the
same `pull_since` call, and in the Collector Manager a collector task that
raises contributes the empty list without affecting the merged results of
the other tasks. -/
theorem failure_isolated_to_its_source
    (files1 files2 : List ConvFile) (f : ConvFile) (msg : String)
    (startMs endMs : Int)
    (results1 results2 : List (Except String (List Event))) (emsg : String) :
    (f.parse = Except.error msg →
      pull_since (files1 ++ f :: files2) startMs endMs
        = pull_since files1 startMs endMs ++ pull_since files2 startMs endMs) ∧
    (dispatchAll (results1 ++ Except.error emsg :: results2)
      = dispatchAll results1 ++ dispatchAll results2) := by
  constructor
  · intro hp
    simp [pull_since, processFile_error startMs endMs f msg hp]
  · simp [dispatchAll, collectWithErrorHandling]

/-- C4 witness: a concrete failing file between two healthy ones drops out
of the result. -/
theorem failure_isolated_to_its_source_witness :
    pull_since [sampleFileOk, sampleFileErr, sampleFileOk] 0 10
      = pull_since [sampleFileOk] 0 10 ++ pull_since [sampleFileOk] 0 10 :=
  (failure_isolated_to_its_source [sampleFileOk] [sampleFileOk] sampleFileErr
    "boom" 0 10 [] [] "x").1 rfl

/-- C10: a conversation file whose mtime (in ms) is strictly before the
window start is skipped entirely and contributes zero events, even when its
messages lie inside the window. -/
theorem stale_file_contributes_nothing
    (files1 files2 : List ConvFile) (f : ConvFile) (startMs endMs : Int)
    (h : f.mtimeMs < startMs) :
    processFile startMs endMs f = [] ∧
    pull_since (files1 ++ f :: files2) startMs endMs
      = pull_since files1 startMs endMs ++ pull_since files2 startMs endMs := by
  have hf : processFile startMs endMs f = [] := by
    unfold processFile
    cases hpres : f.present with
    | false => simp
    | true => simp [h]
  exact ⟨hf, by simp [pull_since, hf]⟩

/-- C10 witness: the stale file holds a message timestamped inside the
window, yet contributes nothing. -/
theorem stale_file_contributes_nothing_witness :
    processFile 0 10 sampleStaleFile = [] ∧
    (0 : Int) ≤ sampleMsgInWindow.timestamp ∧ sampleMsgInWindow.timestamp ≤ 10 :=
  ⟨(stale_file_contributes_nothing [] [] sampleStaleFile 0 10 (by decide)).1,
    by decide, by decide⟩

/-- C5 (amended): the conversation base drops every message whose flat text
contains the `tool_use_id` marker and skips tool-typed content parts, but
the standalone Claude collector (`claude.py`) converts tool parts into
bracketed text summaries and does turn a message whose text contains
`tool_use_id` into an event. -/
theorem tool_marker_filtering_by_variant
    (m : Message) (item : ContentItem) (rest : List ContentItem) :
    (m.text ≠ "" → containsSub (lowerStr m.text) "tool_use_id" = true →
      createEventBase m = Except.ok none) ∧
    (toolPartTypes.contains item.type = true →
      extractTextFromParts (item :: rest) = extractTextFromParts rest) ∧
    (createEventFromMessage sampleGitToplevel sampleIsDir "id1"
        sampleClaudeToolLine = some sampleClaudeToolEvent) := by
  refine ⟨?_, ?_, by decide⟩
  · intro hne hcont
    have htext : (m.text == "") = false := by simpa using hne
    by_cases hsys : (m.role == "system") = true
    · simp [createEventBase, hsys]
    · by_cases hua : (m.role == "user" || m.role == "assistant") = true
      · have hany : toolPatternsBase.any
            (fun p => containsSub (lowerStr m.text) p) = true :=
          List.any_eq_true.mpr ⟨"tool_use_id", by simp [toolPatternsBase], hcont⟩
        have htool : isToolRelatedContent m.text = true := by
          unfold isToolRelatedContent
          simp [htext, hany]
        simp [createEventBase, hsys, hua, hne, htext, htool]
      · simp [createEventBase, hsys, hua]
  · intro hty
    have hmem : item.type ∈ toolPartTypes := by simpa using hty
    simp [extractTextFromParts, hmem]

/-- C5 witness: the marker-carrying flat-text message is dropped by the
conversation base. -/
theorem tool_marker_filtering_by_variant_witness :
    createEventBase sampleBaseToolMsg = Except.ok none :=
  (tool_marker_filtering_by_variant sampleBaseToolMsg
    { type := "tool_use" } []).1 (by decide) (by decide)

/-- C5 counterexample: the standalone Claude collector converts a message
whose text contains `tool_use_id` into an event whose stored text still
contains the marker, so the "never converted in every variant" claim fails. -/
theorem claude_collector_stores_tool_marked_text :
    createEventFromMessage sampleGitToplevel sampleIsDir "id1"
        sampleClaudeToolLine = some sampleClaudeToolEvent ∧
    containsSub sampleClaudeToolEvent.text "tool_use_id" = true := by
  exact ⟨by decide, by decide⟩

/-- C6 (amended): the Cursor bubble parser resolves the timestamp from
`tokenCountUpUntilHere` (a token count) first, else `createdAt`, else the
composer's `lastUpdatedAt`, first non-zero value winning, followed by the
seconds-to-milliseconds normalisation. -/
theorem bubble_timestamp_priority (b : BubbleData) (lu : Int) :
    (b.tokenCountUpUntilHere ≠ 0 →
      resolveBubbleTimestamp b lu = scaleMsIfSeconds b.tokenCountUpUntilHere) ∧
    (b.tokenCountUpUntilHere = 0 → b.createdAt ≠ 0 →
      resolveBubbleTimestamp b lu = scaleMsIfSeconds b.createdAt) ∧
    (b.tokenCountUpUntilHere = 0 → b.createdAt = 0 →
      resolveBubbleTimestamp b lu = scaleMsIfSeconds lu) := by
  refine ⟨?_, ?_, ?_⟩
  · intro h
    simp [resolveBubbleTimestamp, h]
  · intro h1 h2
    simp [resolveBubbleTimestamp, h1, h2]
  · intro h1 h2
    simp [resolveBubbleTimestamp, h1, h2]

/-- C6 witness: with a zero token count the creation time wins. -/
theorem bubble_timestamp_priority_witness :
    resolveBubbleTimestamp sampleBubbleFixBug 0
      = scaleMsIfSeconds sampleBubbleFixBug.createdAt :=
  (bubble_timestamp_priority sampleBubbleFixBug 0).2.1 (by decide) (by decide)

/-- C6 counterexample: on a bubble with a non-zero token count and an
explicit creation time, the resolved timestamp is the scaled token count —
neither the scaled creation time nor the session's `lastUpdatedAt` — so the
claimed time-field-first priority list does not hold. -/
theorem bubble_timestamp_uses_token_count :
    parseBubble sampleBubbleTok 1700000000000
      = some { role := "assistant", timestamp := 777000,
               text := "hello world", file := none } ∧
    (777000 : Int) ≠ scaleMsIfSeconds sampleBubbleTok.createdAt ∧
    (777000 : Int) ≠ 1700000000000 := by
  exact ⟨by decide, by decide, by decide⟩

/-- C7: the worked example decodes to exactly one message with role `user`
(mapped to the user actor) and timestamp 1690000000000 (seconds scaled to
milliseconds below the 1e10 threshold), and any bubble whose integer type
discriminator differs from 1 yields the assistant actor. -/
theorem bubble_example_user_and_type_discriminator :
    (parseBubble sampleBubbleFixBug 0 = some sampleMsgFixBug ∧
     sampleMsgFixBug.timestamp = 1690000000000 ∧
     actorOfRole sampleMsgFixBug.role = "user") ∧
    (∀ (b : BubbleData) (lu : Int) (m : Message),
      b.type ≠ 1 → parseBubble b lu = some m →
        actorOfRole m.role = "assistant") := by
  constructor
  · exact ⟨by decide, by decide, by decide⟩
  · intro b lu m ht hp
    simp only [parseBubble] at hp
    rw [if_neg ht] at hp
    by_cases hcond : (b.text != "") = true ∧ 0 < resolveBubbleTimestamp b lu
    · rw [if_pos hcond] at hp
      have hm := Option.some.inj hp
      rw [← hm]
      rfl
    · rw [if_neg hcond] at hp
      exact Option.noConfusion hp

/-- C7 witness: a type-2 bubble maps to the assistant actor. -/
theorem bubble_example_user_and_type_discriminator_witness :
    actorOfRole sampleMsgAssistant.role = "assistant" :=
  bubble_example_user_and_type_discriminator.2 sampleBubbleAssistant 0
    sampleMsgAssistant (by decide) (by decide)

/-- C8 (amended): the collection window start is the cached last-commit
time when it is present, unexpired *and non-zero* (the code guards it with
Python truthiness, so a cached value of 0 is skipped); else the last commit
time from git, which is then written to the cache; else now minus 24 hours;
the window end is always now, and a cache entry older than the 60-second
TTL reads as absent. -/
theorem resolve_window_cases
    (entry : Option (Int × Int)) (nowSec : Int) (gitLastMs : Option Int)
    (nowMs : Int) :
    (∀ t, cacheGet entry nowSec 60 = some t → t ≠ 0 →
      resolveWindow entry nowSec gitLastMs nowMs = (t, nowMs, false)) ∧
    (∀ t, truthyInt (cacheGet entry nowSec 60) = false → gitLastMs = some t →
      resolveWindow entry nowSec gitLastMs nowMs = (t, nowMs, true)) ∧
    (truthyInt (cacheGet entry nowSec 60) = false → gitLastMs = none →
      resolveWindow entry nowSec gitLastMs nowMs
        = (nowMs - 24 * 60 * 60 * 1000, nowMs, false)) ∧
    ((resolveWindow entry nowSec gitLastMs nowMs).2.1 = nowMs) ∧
    (∀ wts v, entry = some (wts, v) → 60 < nowSec - wts →
      cacheGet entry nowSec 60 = none) := by
  refine ⟨?_, ?_, ?_, ?_, ?_⟩
  · intro t hc ht
    simp [resolveWindow, hc, truthyInt, ht]
  · intro t htr hg
    simp [resolveWindow, htr, hg]
  · intro htr hg
    simp [resolveWindow, htr, hg]
  · by_cases htr : truthyInt (cacheGet entry nowSec 60) = true
    · simp [resolveWindow, htr]
    · have htr' : truthyInt (cacheGet entry nowSec 60) = false := by
        simpa using htr
      cases hg : gitLastMs with
      | some t => simp [resolveWindow, htr', hg]
      | none => simp [resolveWindow, htr', hg]
  · intro wts v he h60
    simp [cacheGet, he, h60]

/-- C8 witness: with no usable cache entry the git anchor wins and is
written back to the cache. -/
theorem resolve_window_cases_witness :
    resolveWindow none 100 (some 7000) 999 = (7000, 999, true) :=
  (resolve_window_cases none 100 (some 7000) 999).2.1 7000 (by decide) rfl

/-- C8 counterexample: a present, unexpired cache entry holding the value 0
is skipped (Python truthiness), so the anchor comes from git instead of the
cache, against the claim's "present and unexpired" resolution. -/
theorem cached_zero_anchor_skipped :
    cacheGet (some (100, 0)) 100 60 = some 0 ∧
    resolveWindow (some (100, 0)) 100 (some 5000) 999 = (5000, 999, true) ∧
    (5000 : Int) ≠ 0 := by
  exact ⟨by decide, by decide, by decide⟩

/-- A resolved repo is exactly a non-empty `git rev-parse --show-toplevel`
answer that passes the `os.path.isdir` check. -/
theorem determineRepoFromCwd_some (g : String → Option String)
    (d : String → Bool) (cwd r : String)
    (h : determineRepoFromCwd g d cwd = some r) :
    g cwd = some r ∧ d r = true := by
  by_cases hcwd : (cwd == "") = true
  · simp [determineRepoFromCwd, hcwd] at h
  · cases hg : g cwd with
    | none => simp [determineRepoFromCwd, hcwd, hg] at h
    | some p =>
      by_cases hok : (p != "" && d p) = true
      · have hval : determineRepoFromCwd g d cwd = some p := by
          simp [determineRepoFromCwd, hcwd, hg, hok]
        rw [hval] at h
        have hp := Option.some.inj h
        cases hp
        exact ⟨rfl, ((Bool.and_eq_true _ _).mp hok).2⟩
      · simp [determineRepoFromCwd, hcwd, hg, hok] at h

/-- C9: every event the standalone Claude collector produces carries as
`repo` a non-empty resolved git toplevel that exists on disk; a message
whose cwd does not resolve (including an empty cwd) produces no event; and
the conversation-base `_create_event` (Cursor and the duplicated
`conversation.py` variants) never completes an event at all — its
constructor line trips on enum members absent from `types.py` — so no
conversation event is ever stored with a null or placeholder repo. -/
theorem conversation_event_repo_is_git_root
    (gitToplevel : String → Option String) (isDir : String → Bool)
    (freshId : String) (d : ClaudeMessageData) (ev : Event) (m : Message)
    (cwd : String) :
    (createEventFromMessage gitToplevel isDir freshId d = some ev →
      gitToplevel d.cwd = some ev.repo ∧ isDir ev.repo = true) ∧
    (determineRepoFromCwd gitToplevel isDir d.cwd = none →
      createEventFromMessage gitToplevel isDir freshId d = none) ∧
    (cwd = "" → determineRepoFromCwd gitToplevel isDir cwd = none) ∧
    (createEventBase m ≠ Except.ok (some ev)) := by
  refine ⟨?_, ?_, ?_, ?_⟩
  · intro h
    cases hts : d.timestampMs with
    | none => simp [createEventFromMessage, hts] at h
    | some ts =>
      simp only [createEventFromMessage, hts] at h
      by_cases hz : (ts == 0) = true
      · rw [if_pos hz] at h
        exact Option.noConfusion h
      · rw [if_neg hz] at h
        by_cases htxt : (extractTextContent d.content == ""
            || strLen (stripStr (extractTextContent d.content)) < 5) = true
        · rw [if_pos htxt] at h
          exact Option.noConfusion h
        · rw [if_neg htxt] at h
          cases hrepo : determineRepoFromCwd gitToplevel isDir d.cwd with
          | none =>
            simp only [hrepo] at h
            exact Option.noConfusion h
          | some r =>
            simp only [hrepo] at h
            have hrec := Option.some.inj h
            rw [← hrec]
            exact determineRepoFromCwd_some gitToplevel isDir d.cwd r hrepo
  · intro hnone
    cases hts : d.timestampMs with
    | none => simp [createEventFromMessage, hts]
    | some ts =>
      simp only [createEventFromMessage, hts]
      split
      · rfl
      · split
        · rfl
        · rw [hnone]
  · intro hc
    simp [determineRepoFromCwd, hc]
  · intro hcontra
    simp only [createEventBase] at hcontra
    split_ifs at hcontra <;> simp at hcontra

/-- C9 witness: an empty working directory resolves to no repository. -/
theorem conversation_event_repo_is_git_root_witness :
    determineRepoFromCwd sampleGitToplevel sampleIsDir "" = none :=
  (conversation_event_repo_is_git_root sampleGitToplevel sampleIsDir "x"
    sampleClaudeToolLine sampleClaudeToolEvent sampleMsgFixBug "").2.2.1 rfl

end Sayu
